import Mathlib

/-!
Verification of the dashboard consumer in
`src/system_monitor/static/js/dashboard.js`:
chart-history updates (`updateChartData`), panel rendering (`updateUI`
pieces), the process table (`updateProcessTable`), the tracking UI
(`updateTrackingUI`), the HTTP response handlers (`startTracking`,
`stopTracking`) and the `tracking_complete` socket handler.

Modelling conventions: JS numbers are rationals, JS strings are `String`,
possibly-absent object fields are `Option`.  JS truthiness on a number
treats `0` (and an absent field) as falsy; `jsNumOr` below reproduces the
JS idiom `x || d` on numeric fields, and conditionals of the form
`x ? a : b` on an optionally-chained numeric field are translated as a
match that sends both `none` and `some 0` to the falsy branch.
DOM writes are modelled as the values assigned (`width: p%` as the
rational `p`, `textContent`/`innerHTML` as the assigned string); a DOM
slot an execution path does not write is `none` in the result record.
-/

namespace Dashboard

/-- JS `o || d` on a possibly-absent numeric field:
both `undefined` and `0` are falsy and select the default. -/
def jsNumOr (o : Option ℚ) (d : ℚ) : ℚ :=
  match o with
  | some v => if v = 0 then d else v
  | none => d

/-- JS rounding used by `Number.prototype.toFixed`: the nearest integer
(at the given scale), ties resolved away from zero on the magnitude. -/
def jsRound (q : ℚ) : ℤ :=
  if q < 0 then -⌊-q + 1 / 2⌋ else ⌊q + 1 / 2⌋

/-- JS `q.toFixed(0)`. -/
def toFixed0 (q : ℚ) : String :=
  (if q < 0 then "-" else "") ++ toString (jsRound q).natAbs

/-- JS `q.toFixed(1)`: one digit after the decimal point. -/
def toFixed1 (q : ℚ) : String :=
  (if q < 0 then "-" else "") ++
    toString ((jsRound (10 * q)).natAbs / 10) ++ "." ++
    toString ((jsRound (10 * q)).natAbs % 10)

/-- JS number-to-string coercion (template interpolation of a raw
number).  Exact on integral values, which are the only values the
theorems below interpolate; a non-integral rational is rendered as
numerator/denominator in place of JS float printing. -/
def jsNumStr (q : ℚ) : String :=
  if q.den = 1 then toString q.num
  else toString q.num ++ "/" ++ toString q.den

/-! ## Typed model of the `stats_update` payload

Structure fields are named exactly after the object properties the
source reads (`dashboard.js` lines 241-363). -/

structure CpuStats where
  usage_percent : Option ℚ
  temperature : Option ℚ
  frequency_current : Option ℚ
  core_count_logical : Option ℚ
deriving DecidableEq

structure MemoryStats where
  usage_percent : Option ℚ
  used_gb : Option ℚ
  total_gb : Option ℚ
  available_gb : Option ℚ
  swap_percent : Option ℚ
deriving DecidableEq

structure GpuStats where
  load_percent : Option ℚ
  name : Option String
  temperature : Option ℚ
  memory_used_mb : Option ℚ
  memory_percent : Option ℚ
deriving DecidableEq

structure NetworkStats where
  upload_speed_kbps : Option ℚ
  download_speed_kbps : Option ℚ
  total_sent_gb : Option ℚ
  total_recv_gb : Option ℚ
deriving DecidableEq

structure DiskStats where
  io_read_speed_mbps : Option ℚ
  io_write_speed_mbps : Option ℚ
deriving DecidableEq

structure ProcessInfo where
  name : String
  cpu_percent : ℚ
  memory_percent : ℚ
deriving DecidableEq

/-- Payload of the `tracking` field of a snapshot and of the
`/api/tracking-status` response, as consumed by `updateTrackingUI`. -/
structure TrackingStatus where
  is_tracking : Bool
  progress : ℚ
  data_points : ℕ
deriving DecidableEq

structure Stats where
  cpu : Option CpuStats
  memory : Option MemoryStats
  gpu : Option (List GpuStats)
  network : Option NetworkStats
  disk : Option DiskStats
  processes : Option (List ProcessInfo)
  tracking : Option TrackingStatus
deriving DecidableEq

/-! ## Chart history (`updateChartData`, lines 241-302) -/

def MAX_DATA_POINTS : ℕ := 60

structure ChartData where
  cpu : List ℚ
  memory : List ℚ
  gpu : List ℚ
  networkUp : List ℚ
  networkDown : List ℚ
  diskRead : List ℚ
  diskWrite : List ℚ
  labels : List String
deriving DecidableEq

/-- Initial chart history (line 14: all arrays empty). -/
def chartInit : ChartData := ⟨[], [], [], [], [], [], [], []⟩

/-- Line 246: `stats.cpu?.usage_percent || 0`. -/
def chartCpuVal (stats : Stats) : ℚ :=
  jsNumOr (stats.cpu.bind (fun c => c.usage_percent)) 0

/-- Line 247: `stats.memory?.usage_percent || 0`. -/
def chartMemoryVal (stats : Stats) : ℚ :=
  jsNumOr (stats.memory.bind (fun m => m.usage_percent)) 0

/-- Line 248: `stats.gpu?.[0]?.load_percent || 0`. -/
def chartGpuVal (stats : Stats) : ℚ :=
  jsNumOr ((stats.gpu.bind List.head?).bind (fun g => g.load_percent)) 0

/-- Line 249: `stats.network?.upload_speed_kbps || 0`. -/
def chartNetworkUpVal (stats : Stats) : ℚ :=
  jsNumOr (stats.network.bind (fun n => n.upload_speed_kbps)) 0

/-- Line 250: `stats.network?.download_speed_kbps || 0`. -/
def chartNetworkDownVal (stats : Stats) : ℚ :=
  jsNumOr (stats.network.bind (fun n => n.download_speed_kbps)) 0

/-- Line 251: `stats.disk?.io_read_speed_mbps || 0`. -/
def chartDiskReadVal (stats : Stats) : ℚ :=
  jsNumOr (stats.disk.bind (fun d => d.io_read_speed_mbps)) 0

/-- Line 252: `stats.disk?.io_write_speed_mbps || 0`. -/
def chartDiskWriteVal (stats : Stats) : ℚ :=
  jsNumOr (stats.disk.bind (fun d => d.io_write_speed_mbps)) 0

/-- Lines 245-252: one `push` on each of the eight history arrays. -/
def pushSample (cd : ChartData) (now : String) (stats : Stats) : ChartData :=
  { cpu := cd.cpu ++ [chartCpuVal stats]
    memory := cd.memory ++ [chartMemoryVal stats]
    gpu := cd.gpu ++ [chartGpuVal stats]
    networkUp := cd.networkUp ++ [chartNetworkUpVal stats]
    networkDown := cd.networkDown ++ [chartNetworkDownVal stats]
    diskRead := cd.diskRead ++ [chartDiskReadVal stats]
    diskWrite := cd.diskWrite ++ [chartDiskWriteVal stats]
    labels := cd.labels ++ [now] }

/-- Lines 256-263: one `shift` on each of the eight history arrays. -/
def shiftAll (cd : ChartData) : ChartData :=
  { cpu := cd.cpu.tail
    memory := cd.memory.tail
    gpu := cd.gpu.tail
    networkUp := cd.networkUp.tail
    networkDown := cd.networkDown.tail
    diskRead := cd.diskRead.tail
    diskWrite := cd.diskWrite.tail
    labels := cd.labels.tail }

/-- Lines 244-264: push the new sample, then shift every array once if
`chartData.labels.length > MAX_DATA_POINTS`.  `now` is the formatted
current time pushed as the label (line 242/245). -/
def updateChartData (cd : ChartData) (now : String) (stats : Stats) : ChartData :=
  if (pushSample cd now stats).labels.length > MAX_DATA_POINTS then
    shiftAll (pushSample cd now stats)
  else pushSample cd now stats

/-- A sequence of `updateChartData` calls from the initial empty state. -/
def runUpdates (ticks : List (String × Stats)) : ChartData :=
  ticks.foldl (fun cd t => updateChartData cd t.1 t.2) chartInit

/-- Lines 290-291: the CPU gauge dataset `[cpuUsage, 100 - cpuUsage]`
with `cpuUsage = stats.cpu?.usage_percent || 0`. -/
def cpuGaugeDataset (stats : Stats) : List ℚ :=
  [chartCpuVal stats, 100 - chartCpuVal stats]

/-! ## `updateUI` pieces (lines 305-363) -/

/-- Lines 310-311: `stats.cpu?.temperature ? temp.toFixed(0)°C : '--°C'`
(JS truthiness: an absent or zero temperature selects `'--°C'`). -/
def cpuTempText (stats : Stats) : String :=
  match stats.cpu.bind (fun c => c.temperature) with
  | some t => if t = 0 then "--°C" else toFixed0 t ++ "°C"
  | none => "--°C"

/-- GPU panel writes performed by lines 326-337; `none` in a field means
that execution path does not write the corresponding DOM slot. -/
structure GpuPanel where
  gpuUsage : String
  gpuName : String
  gpuTemp : Option String
  gpuMemory : Option String
  gpuMemPercent : Option String
deriving DecidableEq

/-- Lines 326-337: `if (stats.gpu && stats.gpu.length > 0)` render the
first GPU entry, else render the absent marker.  String truthiness:
`gpu.name || 'Unknown GPU'` treats the empty string as falsy, and a
`toFixed` result is never the empty string, so `toFixed(1) || 0` always
keeps the formatted number when the field is present. -/
def updateGpuPanel (stats : Stats) : GpuPanel :=
  match stats.gpu with
  | some (gpu :: _) =>
      { gpuUsage := (match gpu.load_percent with
                     | some v => toFixed1 v
                     | none => jsNumStr 0) ++ "%"
        gpuName := (match gpu.name with
                    | some n => if n = "" then "Unknown GPU" else n
                    | none => "Unknown GPU")
        gpuTemp := some (match gpu.temperature with
                         | some t => if t = 0 then "--°C" else jsNumStr t ++ "°C"
                         | none => "--°C")
        gpuMemory := some ((match gpu.memory_used_mb with
                            | some v => toFixed0 v
                            | none => jsNumStr 0) ++ " MB")
        gpuMemPercent := some ((match gpu.memory_percent with
                                | some v => toFixed1 v
                                | none => jsNumStr 0) ++ "%") }
  | _ =>
      { gpuUsage := "N/A"
        gpuName := "GPU를 찾을 수 없음"
        gpuTemp := none
        gpuMemory := none
        gpuMemPercent := none }

/-! ## Process table (`updateProcessTable`, lines 394-407) -/

/-- One rendered table row: name cell, CPU cell, memory cell. -/
structure ProcRow where
  name : String
  cpuText : String
  memText : String
deriving DecidableEq

/-- Lines 400-404: the row built for one process entry, both percentages
through `toFixed(1)`. -/
def procRowOf (proc : ProcessInfo) : ProcRow :=
  ⟨proc.name, toFixed1 proc.cpu_percent ++ "%", toFixed1 proc.memory_percent ++ "%"⟩

/-- Lines 394-407: `tbody.innerHTML = ''` discards the previous rows,
then one row is appended per entry of `processes`, in order. -/
def updateProcessTable (prev : List ProcRow) (processes : List ProcessInfo) :
    List ProcRow :=
  processes.foldl (fun tbody proc => tbody ++ [procRowOf proc]) []

/-! ## Tracking UI (`updateTrackingUI`, lines 410-445) -/

/-- DOM writes performed by one `updateTrackingUI` call; `none` means the
slot is not written on that path. -/
structure TrackingUIEffect where
  statusHtml : String
  statusActive : Bool
  progressDisplay : Option String
  progressWidthPct : Option ℚ
  dataPointsText : Option ℕ
  startBtnDisabled : Bool
  stopBtnDisabled : Bool
  pdfBtnDisabled : Bool
deriving DecidableEq

/-- Lines 410-445, translated branch by branch. -/
def updateTrackingUI (tracking : TrackingStatus) : TrackingUIEffect :=
  if tracking.is_tracking then
    { statusHtml := "<span class=\"tracking-icon\">🔴</span><span class=\"tracking-text\">추적 중...</span>"
      statusActive := true
      progressDisplay := some "flex"
      progressWidthPct := some tracking.progress
      dataPointsText := some tracking.data_points
      startBtnDisabled := true
      stopBtnDisabled := false
      pdfBtnDisabled := true }
  else if tracking.data_points > 0 then
    { statusHtml := "<span class=\"tracking-icon\">⏱️</span><span class=\"tracking-text\">대기 중</span>"
      statusActive := false
      progressDisplay := some "flex"
      progressWidthPct := some 100
      dataPointsText := some tracking.data_points
      startBtnDisabled := false
      stopBtnDisabled := true
      pdfBtnDisabled := false }
  else
    { statusHtml := "<span class=\"tracking-icon\">⏱️</span><span class=\"tracking-text\">대기 중</span>"
      statusActive := false
      progressDisplay := some "none"
      progressWidthPct := none
      dataPointsText := none
      startBtnDisabled := false
      stopBtnDisabled := true
      pdfBtnDisabled := true }

/-! ## Toast notifications and HTTP response handlers -/

/-- One `showToast(message, type)` call (lines 462-473). -/
structure Toast where
  message : String
  type : String
deriving DecidableEq

/-- Response body of `/api/start-tracking` and `/api/stop-tracking`. -/
structure ApiResponse where
  status : String
  message : String
deriving DecidableEq

/-- Lines 481-485: on `status === 'started'` a fixed success toast,
otherwise `showToast(data.message, 'error')`; nothing else happens. -/
def startTrackingHandle (data : ApiResponse) : Toast :=
  if data.status = "started" then Toast.mk "5분 추적을 시작합니다." "success"
  else Toast.mk data.message "error"

/-- Line 496: unconditionally `showToast(data.message, 'info')`. -/
def stopTrackingHandle (data : ApiResponse) : Toast :=
  Toast.mk data.message "info"

/-- Payload of the `tracking_complete` socket event. -/
structure CompletePayload where
  message : String
  data_points : ℕ
deriving DecidableEq

/-- Lines 554-557: the toasts shown (exactly one, with the payload
message) and the value written to `generatePdfBtn.disabled`. -/
def onTrackingComplete (data : CompletePayload) : List Toast × Bool :=
  ([Toast.mk data.message "success"], false)

/-- Response body of `/api/generate-pdf`. -/
structure PdfResponse where
  status : String
  message : String
  filename : String
deriving DecidableEq

/-- Effects of one `generatePDF` run on a fetched JSON response (lines
503-531): the toasts shown, the file download started on success, and
the two writes to `generatePdfBtn.disabled` — `true` at entry
(line 505) and, in the `finally` block (line 529), unconditionally
`false` again, whatever the response; the function never consults the
tracking state. -/
structure PdfRunEffect where
  toasts : List Toast
  downloadFilename : Option String
  btnDisabledAtEntry : Bool
  btnDisabledAtExit : Bool
deriving DecidableEq

/-- Lines 503-531, on the fetched response: success path shows the fixed
success toast and starts the download of `data.filename`; any other
status shows `data.message` as an error toast; both paths end in the
`finally` block re-enabling the button. -/
def generatePDFHandle (data : PdfResponse) : PdfRunEffect :=
  if data.status = "success" then
    { toasts := [Toast.mk "PDF가 생성되었습니다. 다운로드를 시작합니다." "success"]
      downloadFilename := some data.filename
      btnDisabledAtEntry := true
      btnDisabledAtExit := false }
  else
    { toasts := [Toast.mk data.message "error"]
      downloadFilename := none
      btnDisabledAtEntry := true
      btnDisabledAtExit := false }

/-! ## String-keyed model of the socket payload

The typed `Stats` model above fixes the property names the source reads.
This model keeps the payload as a JS object (string-keyed fields) so
that statements about *which* field names the dashboard reads can be
made: a payload carrying a value under a different name is observed as
an absent field. -/

inductive JsVal where
  | num (q : ℚ)
  | str (s : String)
  | obj (fields : List (String × JsVal))

/-- JS property access `o[key]` on an object value. -/
def JsVal.get : JsVal → String → Option JsVal
  | JsVal.obj fields, key => (fields.find? (fun p => p.1 == key)).map (fun p => p.2)
  | _, _ => none

/-- Numeric value of a field, `none` when absent or non-numeric. -/
def asNum : Option JsVal → Option ℚ
  | some (JsVal.num q) => some q
  | _ => none

/-- Line 251 on the raw payload: `stats.disk?.io_read_speed_mbps || 0`. -/
def chartDiskReadOf (stats : JsVal) : ℚ :=
  jsNumOr (asNum ((stats.get "disk").bind (fun d => d.get "io_read_speed_mbps"))) 0

/-- Line 252 on the raw payload: `stats.disk?.io_write_speed_mbps || 0`. -/
def chartDiskWriteOf (stats : JsVal) : ℚ :=
  jsNumOr (asNum ((stats.get "disk").bind (fun d => d.get "io_write_speed_mbps"))) 0

/-- Lines 310-311 on the raw payload: the `cpuTemp` text. -/
def cpuTempTextOf (stats : JsVal) : String :=
  match asNum ((stats.get "cpu").bind (fun c => c.get "temperature")) with
  | some t => if t = 0 then "--°C" else toFixed0 t ++ "°C"
  | none => "--°C"

/-- Lines 312-313 on the raw payload: the `cpuFreq` text. -/
def cpuFreqTextOf (stats : JsVal) : String :=
  match asNum ((stats.get "cpu").bind (fun c => c.get "frequency_current")) with
  | some f => if f = 0 then "-- MHz" else toFixed0 f ++ " MHz"
  | none => "-- MHz"

/-- Line 314 on the raw payload: `stats.cpu?.core_count_logical || '--'`. -/
def cpuCoresTextOf (stats : JsVal) : String :=
  match asNum ((stats.get "cpu").bind (fun c => c.get "core_count_logical")) with
  | some c => if c = 0 then "--" else jsNumStr c
  | none => "--"

/-- Line 349 on the raw payload: the `diskRead` text. -/
def diskReadTextOf (stats : JsVal) : String :=
  jsNumStr (chartDiskReadOf stats) ++ " MB/s"

/-- Line 350 on the raw payload: the `diskWrite` text. -/
def diskWriteTextOf (stats : JsVal) : String :=
  jsNumStr (chartDiskWriteOf stats) ++ " MB/s"

/-- A payload carrying disk read/write speeds and the three CPU detail
values under the property names the source actually reads. -/
def codeNamedPayload (r w t f c : ℚ) : JsVal :=
  JsVal.obj
    [("cpu", JsVal.obj
        [("temperature", JsVal.num t),
         ("frequency_current", JsVal.num f),
         ("core_count_logical", JsVal.num c)]),
     ("disk", JsVal.obj
        [("io_read_speed_mbps", JsVal.num r),
         ("io_write_speed_mbps", JsVal.num w)])]

/-- A payload carrying the same values under the field names of §3 of
the specification (`read_speed_mbps`, `write_speed_mbps`,
`temperature_c`, `frequency_mhz`, `logical_cores`). -/
def specNamedPayload : JsVal :=
  JsVal.obj
    [("cpu", JsVal.obj
        [("usage_percent", JsVal.num 10),
         ("temperature_c", JsVal.num 50),
         ("frequency_mhz", JsVal.num 3000),
         ("logical_cores", JsVal.num 8)]),
     ("disk", JsVal.obj
        [("read_speed_mbps", JsVal.num 5),
         ("write_speed_mbps", JsVal.num 7)])]

/-! ## Chart-history invariant machinery -/

/-- The eight history arrays have equal length. -/
def sameLens (cd : ChartData) : Prop :=
  cd.cpu.length = cd.labels.length ∧ cd.memory.length = cd.labels.length ∧
  cd.gpu.length = cd.labels.length ∧ cd.networkUp.length = cd.labels.length ∧
  cd.networkDown.length = cd.labels.length ∧ cd.diskRead.length = cd.labels.length ∧
  cd.diskWrite.length = cd.labels.length

/-- Reachable-state invariant of the chart history. -/
def chartInv (cd : ChartData) : Prop :=
  sameLens cd ∧ cd.labels.length ≤ MAX_DATA_POINTS

theorem chartInv_init : chartInv chartInit :=
  ⟨⟨rfl, rfl, rfl, rfl, rfl, rfl, rfl⟩, by simp [chartInit, MAX_DATA_POINTS]⟩

theorem sameLens_pushSample (cd : ChartData) (now : String) (stats : Stats)
    (h : sameLens cd) : sameLens (pushSample cd now stats) := by
  obtain ⟨h1, h2, h3, h4, h5, h6, h7⟩ := h
  simp only [sameLens, pushSample, List.length_append, List.length_singleton]
  omega

theorem chartInv_update (cd : ChartData) (now : String) (stats : Stats)
    (h : chartInv cd) : chartInv (updateChartData cd now stats) := by
  obtain ⟨hs, hl⟩ := h
  have hp := sameLens_pushSample cd now stats hs
  obtain ⟨h1, h2, h3, h4, h5, h6, h7⟩ := hp
  unfold updateChartData
  by_cases hc : (pushSample cd now stats).labels.length > MAX_DATA_POINTS
  · rw [if_pos hc]
    constructor
    · simp only [sameLens, shiftAll, List.length_tail]
      omega
    · simp only [shiftAll, List.length_tail]
      simp only [pushSample, List.length_append, List.length_singleton] at hc ⊢
      omega
  · rw [if_neg hc]
    exact ⟨⟨h1, h2, h3, h4, h5, h6, h7⟩, by omega⟩

theorem chartInv_foldl (ticks : List (String × Stats)) :
    ∀ cd : ChartData, chartInv cd →
      chartInv (ticks.foldl (fun cd t => updateChartData cd t.1 t.2) cd) := by
  induction ticks with
  | nil => intro cd h; exact h
  | cons t ts ih => intro cd h; exact ih _ (chartInv_update cd t.1 t.2 h)

theorem chartInv_runUpdates (ticks : List (String × Stats)) :
    chartInv (runUpdates ticks) :=
  chartInv_foldl ticks chartInit chartInv_init

theorem tail_append_singleton {α : Type} {l : List α} (x : α) (h : 0 < l.length) :
    (l ++ [x]).tail = l.tail ++ [x] := by
  cases l with
  | nil => simp at h
  | cons a as => rfl

theorem updateChartData_at_cap (cd : ChartData) (now : String) (stats : Stats)
    (hs : sameLens cd) (hl : cd.labels.length = MAX_DATA_POINTS) :
    updateChartData cd now stats = ChartData.mk
      (cd.cpu.tail ++ [chartCpuVal stats])
      (cd.memory.tail ++ [chartMemoryVal stats])
      (cd.gpu.tail ++ [chartGpuVal stats])
      (cd.networkUp.tail ++ [chartNetworkUpVal stats])
      (cd.networkDown.tail ++ [chartNetworkDownVal stats])
      (cd.diskRead.tail ++ [chartDiskReadVal stats])
      (cd.diskWrite.tail ++ [chartDiskWriteVal stats])
      (cd.labels.tail ++ [now]) := by
  obtain ⟨h1, h2, h3, h4, h5, h6, h7⟩ := hs
  have hM : MAX_DATA_POINTS = 60 := rfl
  have hcond : (pushSample cd now stats).labels.length > MAX_DATA_POINTS := by
    simp [pushSample, hl]
  unfold updateChartData
  rw [if_pos hcond]
  unfold shiftAll pushSample
  congr 1 <;> exact tail_append_singleton _ (by omega)

/-- Claim C8: starting from the empty chart history, after any sequence
of `updateChartData` calls all eight history arrays have equal length,
that length never exceeds `MAX_DATA_POINTS` (60), and once the cap is
reached each further sample removes exactly the oldest entry of every
array while appending the new one. -/
theorem chart_histories_synchronized (ticks : List (String × Stats)) :
    sameLens (runUpdates ticks) ∧
    (runUpdates ticks).labels.length ≤ MAX_DATA_POINTS ∧
    ∀ now stats, (runUpdates ticks).labels.length = MAX_DATA_POINTS →
      updateChartData (runUpdates ticks) now stats = ChartData.mk
        ((runUpdates ticks).cpu.tail ++ [chartCpuVal stats])
        ((runUpdates ticks).memory.tail ++ [chartMemoryVal stats])
        ((runUpdates ticks).gpu.tail ++ [chartGpuVal stats])
        ((runUpdates ticks).networkUp.tail ++ [chartNetworkUpVal stats])
        ((runUpdates ticks).networkDown.tail ++ [chartNetworkDownVal stats])
        ((runUpdates ticks).diskRead.tail ++ [chartDiskReadVal stats])
        ((runUpdates ticks).diskWrite.tail ++ [chartDiskWriteVal stats])
        ((runUpdates ticks).labels.tail ++ [now]) := by
  obtain ⟨hs, hl⟩ := chartInv_runUpdates ticks
  exact ⟨hs, hl, fun now stats h => updateChartData_at_cap _ now stats hs h⟩

/-- A snapshot all of whose fields are absent. -/
def emptyStats : Stats := ⟨none, none, none, none, none, none, none⟩

/-- Sixty ticks, enough to fill the history to its cap. -/
def ticks60 : List (String × Stats) := List.replicate 60 ("t", emptyStats)

set_option maxRecDepth 8000 in
/-- Witness for claim C8's theorem at sixty concrete ticks. -/
theorem chart_histories_synchronized_witness :
    updateChartData (runUpdates ticks60) "u" emptyStats = ChartData.mk
      ((runUpdates ticks60).cpu.tail ++ [chartCpuVal emptyStats])
      ((runUpdates ticks60).memory.tail ++ [chartMemoryVal emptyStats])
      ((runUpdates ticks60).gpu.tail ++ [chartGpuVal emptyStats])
      ((runUpdates ticks60).networkUp.tail ++ [chartNetworkUpVal emptyStats])
      ((runUpdates ticks60).networkDown.tail ++ [chartNetworkDownVal emptyStats])
      ((runUpdates ticks60).diskRead.tail ++ [chartDiskReadVal emptyStats])
      ((runUpdates ticks60).diskWrite.tail ++ [chartDiskWriteVal emptyStats])
      ((runUpdates ticks60).labels.tail ++ ["u"]) :=
  (chart_histories_synchronized ticks60).2.2 "u" emptyStats (by decide)

/-- Claim C10: after `updateChartData(stats)` the CPU gauge dataset is
`[u, 100 - u]` for `u = stats.cpu?.usage_percent || 0`; the two entries
sum to 100 and are both non-negative whenever `u` lies in `[0, 100]`. -/
theorem cpu_gauge_complement (stats : Stats) :
    cpuGaugeDataset stats = [chartCpuVal stats, 100 - chartCpuVal stats] ∧
    chartCpuVal stats + (100 - chartCpuVal stats) = 100 ∧
    (0 ≤ chartCpuVal stats ∧ chartCpuVal stats ≤ 100 →
      0 ≤ chartCpuVal stats ∧ 0 ≤ 100 - chartCpuVal stats) :=
  ⟨rfl, by ring, fun h => ⟨h.1, by linarith [h.2]⟩⟩

/-- A snapshot reporting 30% CPU usage. -/
def gaugeStats : Stats :=
  ⟨some ⟨some 30, none, none, none⟩, none, none, none, none, none, none⟩

/-- Witness for claim C10's theorem at 30% CPU usage. -/
theorem cpu_gauge_complement_witness :
    0 ≤ chartCpuVal gaugeStats ∧ 0 ≤ 100 - chartCpuVal gaugeStats :=
  (cpu_gauge_complement gaugeStats).2.2 ⟨by decide, by decide⟩

/-- Claim C6: a snapshot whose `gpu` field is the empty sequence renders
the absent-GPU markers (`'N/A'` and the not-found label, no numeric GPU
slots written) and appends `0` to the GPU load history. -/
theorem empty_gpu_sequence_handled (stats : Stats) (h : stats.gpu = some []) :
    (updateGpuPanel stats).gpuUsage = "N/A" ∧
    (updateGpuPanel stats).gpuName = "GPU를 찾을 수 없음" ∧
    (updateGpuPanel stats).gpuTemp = none ∧
    (updateGpuPanel stats).gpuMemory = none ∧
    (updateGpuPanel stats).gpuMemPercent = none ∧
    chartGpuVal stats = 0 ∧
    ∀ cd now, (updateChartData cd now stats).gpu = cd.gpu ++ [0] ∨
      (updateChartData cd now stats).gpu = (cd.gpu ++ [0]).tail := by
  have hg : chartGpuVal stats = 0 := by simp [chartGpuVal, h, jsNumOr]
  refine ⟨by simp [updateGpuPanel, h], by simp [updateGpuPanel, h],
    by simp [updateGpuPanel, h], by simp [updateGpuPanel, h],
    by simp [updateGpuPanel, h], hg, ?_⟩
  intro cd now
  unfold updateChartData
  by_cases hc : (pushSample cd now stats).labels.length > MAX_DATA_POINTS
  · rw [if_pos hc]
    right
    simp [shiftAll, pushSample, hg]
  · rw [if_neg hc]
    left
    simp [pushSample, hg]

/-- A snapshot with an explicitly empty GPU sequence. -/
def noGpuStats : Stats := ⟨none, none, some [], none, none, none, none⟩

/-- Witness for claim C6's theorem at a concrete empty-GPU snapshot. -/
theorem empty_gpu_sequence_handled_witness :
    (updateGpuPanel noGpuStats).gpuUsage = "N/A" ∧
    (updateGpuPanel noGpuStats).gpuName = "GPU를 찾을 수 없음" ∧
    ((updateChartData chartInit "t" noGpuStats).gpu = chartInit.gpu ++ [0] ∨
      (updateChartData chartInit "t" noGpuStats).gpu = (chartInit.gpu ++ [0]).tail) :=
  ⟨(empty_gpu_sequence_handled noGpuStats rfl).1,
   (empty_gpu_sequence_handled noGpuStats rfl).2.1,
   (empty_gpu_sequence_handled noGpuStats rfl).2.2.2.2.2.2 chartInit "t"⟩

/-- Claim C9: a temperature field that is present and exactly `0` is
rendered as the absent marker `'--°C'`, both for the CPU panel and for
the first GPU entry — indistinguishable from a missing sensor. -/
theorem zero_temperature_reads_as_absent (stats : Stats) :
    (stats.cpu.bind (fun c => c.temperature) = some 0 →
      cpuTempText stats = "--°C") ∧
    (∀ g rest, stats.gpu = some (g :: rest) → g.temperature = some 0 →
      (updateGpuPanel stats).gpuTemp = some "--°C") := by
  constructor
  · intro h
    simp [cpuTempText, h]
  · intro g rest hg ht
    simp [updateGpuPanel, hg, ht]

/-- A snapshot whose CPU temperature and first GPU temperature are 0. -/
def zeroTempStats : Stats :=
  ⟨some ⟨none, some 0, none, none⟩, none,
   some [⟨none, none, some 0, none, none⟩], none, none, none, none⟩

/-- Witness for claim C9's theorem at zero-degree readings. -/
theorem zero_temperature_reads_as_absent_witness :
    cpuTempText zeroTempStats = "--°C" ∧
    (updateGpuPanel zeroTempStats).gpuTemp = some "--°C" :=
  ⟨(zero_temperature_reads_as_absent zeroTempStats).1 rfl,
   (zero_temperature_reads_as_absent zeroTempStats).2
     ⟨none, none, some 0, none, none⟩ [] rfl rfl⟩

theorem foldl_append_eq_map {α β : Type} (f : α → β) (ps : List α) :
    ∀ acc : List β, ps.foldl (fun rows p => rows ++ [f p]) acc = acc ++ ps.map f := by
  induction ps with
  | nil => intro acc; simp
  | cons p ps ih => intro acc; simp [ih]

/-- Claim C7: `updateProcessTable` replaces the previous table contents
with exactly one row per process entry, in payload order, each row
carrying both percentages through `toFixed(1)`. -/
theorem process_table_replaces_rows (prev : List ProcRow)
    (processes : List ProcessInfo) :
    updateProcessTable prev processes = processes.map procRowOf ∧
    (updateProcessTable prev processes).length = processes.length := by
  have h : updateProcessTable prev processes = processes.map procRowOf := by
    unfold updateProcessTable
    simpa using foldl_append_eq_map procRowOf processes []
  exact ⟨h, by simp [h]⟩

/-- Claim C2: the progress value written to the progress bar never
exceeds 100 — while tracking it is exactly the status's `progress`
field (which the specification bounds by 100), and when idle with data
present it is exactly 100. -/
theorem progress_bar_bounded (tracking : TrackingStatus)
    (h : tracking.progress ≤ 100) :
    ∀ w, (updateTrackingUI tracking).progressWidthPct = some w →
      w ≤ 100 ∧
      (tracking.is_tracking = true → w = tracking.progress) ∧
      (tracking.is_tracking = false → 0 < tracking.data_points → w = 100) := by
  intro w hw
  by_cases hb : tracking.is_tracking = true
  · simp [updateTrackingUI, hb] at hw
    subst hw
    exact ⟨h, fun _ => rfl, fun hf _ => by rw [hf] at hb; exact absurd hb (by decide)⟩
  · have hb' : tracking.is_tracking = false := by
      cases hcase : tracking.is_tracking with
      | false => rfl
      | true => exact absurd hcase hb
    by_cases hd : tracking.data_points > 0
    · simp [updateTrackingUI, hb', hd] at hw
      subst hw
      refine ⟨by norm_num, fun ht => ?_, fun _ _ => rfl⟩
      rw [ht] at hb'
      exact absurd hb' (by decide)
    · simp [updateTrackingUI, hb', hd] at hw

/-- Witness for claim C2's theorem on an active session at 42%. -/
theorem progress_bar_bounded_witness :
    (42 : ℚ) ≤ 100 ∧
    ((TrackingStatus.mk true 42 5).is_tracking = true →
      (42 : ℚ) = (TrackingStatus.mk true 42 5).progress) ∧
    ((TrackingStatus.mk true 42 5).is_tracking = false →
      0 < (TrackingStatus.mk true 42 5).data_points → (42 : ℚ) = 100) :=
  progress_bar_bounded (TrackingStatus.mk true 42 5) (by norm_num) 42 (by decide)

/-- Claim C3: `startTracking` shows a success toast exactly when the
response status is `"started"`; otherwise it shows the response message
as an error toast and does nothing else. -/
theorem start_tracking_toast_branches (data : ApiResponse) :
    ((startTrackingHandle data).type = "success" ↔ data.status = "started") ∧
    (data.status ≠ "started" →
      startTrackingHandle data = Toast.mk data.message "error") := by
  by_cases h : data.status = "started"
  · refine ⟨⟨fun _ => h, fun _ => ?_⟩, fun hne => absurd h hne⟩
    simp [startTrackingHandle, h]
  · refine ⟨⟨fun habs => ?_, fun hs => absurd hs h⟩, fun _ => ?_⟩
    · have he : (startTrackingHandle data).type = "error" := by
        simp [startTrackingHandle, h]
      rw [he] at habs
      exact absurd habs (by decide)
    · simp [startTrackingHandle, h]

/-- Witness for claim C3's theorem on an `"error"` response. -/
theorem start_tracking_toast_branches_witness :
    startTrackingHandle (ApiResponse.mk "error" "already tracking") =
      Toast.mk "already tracking" "error" :=
  (start_tracking_toast_branches (ApiResponse.mk "error" "already tracking")).2
    (by decide)

/-- Claim C4: `stopTracking` always surfaces the response message as an
informational toast (kind `"info"`, never `"error"`), whatever the
response status — a stop with nothing running is a no-op report. -/
theorem stop_tracking_always_info (data : ApiResponse) :
    stopTrackingHandle data = Toast.mk data.message "info" ∧
    (stopTrackingHandle data).type = "info" :=
  ⟨rfl, rfl⟩

/-- Counterexample for claim C5: `generatePDF` is a handler path other
than the `tracking_complete` handler that enables the PDF control — its
`finally` block (line 529) sets `disabled = false` on every run, here
after an error response, and the function never consults the tracking
state, so it does so equally while a concrete tracking status reports
an active session (a state in which `updateTrackingUI` keeps the
control disabled). -/
theorem generate_pdf_enables_while_active :
    (TrackingStatus.mk true 50 100).is_tracking = true ∧
    (updateTrackingUI (TrackingStatus.mk true 50 100)).pdfBtnDisabled = true ∧
    (generatePDFHandle (PdfResponse.mk "error" "PDF 생성 실패" "")).btnDisabledAtExit = false ∧
    (generatePDFHandle (PdfResponse.mk "error" "PDF 생성 실패" "")).toasts =
      [Toast.mk "PDF 생성 실패" "error"] := by
  decide

/-- Claim C5 (amended): the `tracking_complete` handler shows the
payload message exactly once (as a single success toast) and enables
the PDF control, and `updateTrackingUI` never enables that control
while a session is reported active; the one other enabling path is
`generatePDF`, whose `finally` block re-enables the control at the end
of every run regardless of the reported tracking state. -/
theorem tracking_complete_enables_pdf_amended (data : CompletePayload) :
    (onTrackingComplete data).1 = [Toast.mk data.message "success"] ∧
    (onTrackingComplete data).1.length = 1 ∧
    (onTrackingComplete data).2 = false ∧
    (∀ tracking : TrackingStatus, tracking.is_tracking = true →
      (updateTrackingUI tracking).pdfBtnDisabled = true) ∧
    (∀ response : PdfResponse,
      (generatePDFHandle response).btnDisabledAtExit = false) := by
  refine ⟨rfl, rfl, rfl, fun t ht => ?_, fun response => ?_⟩
  · simp [updateTrackingUI, ht]
  · unfold generatePDFHandle
    split <;> rfl

/-- Witness for amended claim C5's theorem at a concrete payload, an
active tracking status and a concrete PDF response. -/
theorem tracking_complete_enables_pdf_amended_witness :
    (onTrackingComplete (CompletePayload.mk "추적 완료" 300)).2 = false ∧
    (updateTrackingUI (TrackingStatus.mk true 50 100)).pdfBtnDisabled = true ∧
    (generatePDFHandle (PdfResponse.mk "success" "" "report.pdf")).btnDisabledAtExit = false :=
  ⟨(tracking_complete_enables_pdf_amended (CompletePayload.mk "추적 완료" 300)).2.2.1,
   (tracking_complete_enables_pdf_amended (CompletePayload.mk "추적 완료" 300)).2.2.2.1
     (TrackingStatus.mk true 50 100) rfl,
   (tracking_complete_enables_pdf_amended (CompletePayload.mk "추적 완료" 300)).2.2.2.2
     (PdfResponse.mk "success" "" "report.pdf")⟩

/-- Counterexample for claim C1: a payload carrying the disk speeds and
CPU details under the field names of §3 of the specification is charted
and displayed with the zero/absent defaults — the charted disk read
speed is `0`, not the payload's `5`, and every CPU detail shows its
absent marker. -/
theorem spec_named_payload_gets_defaults :
    chartDiskReadOf specNamedPayload = 0 ∧
    chartDiskReadOf specNamedPayload < 5 ∧
    chartDiskWriteOf specNamedPayload = 0 ∧
    chartDiskWriteOf specNamedPayload < 7 ∧
    cpuTempTextOf specNamedPayload = "--°C" ∧
    cpuFreqTextOf specNamedPayload = "-- MHz" ∧
    cpuCoresTextOf specNamedPayload = "--" ∧
    diskReadTextOf specNamedPayload = "0 MB/s" ∧
    diskWriteTextOf specNamedPayload = "0 MB/s" := by
  decide

/-- Claim C1 (amended): the dashboard charts and displays exactly the
payload values that arrive under the property names the source reads —
`disk.io_read_speed_mbps`, `disk.io_write_speed_mbps`,
`cpu.temperature`, `cpu.frequency_current`, `cpu.core_count_logical` —
the CPU details provided they are non-zero (JS truthiness treats a zero
value as absent). -/
theorem dashboard_reads_code_field_names (r w t f c : ℚ)
    (ht : t ≠ 0) (hf : f ≠ 0) (hc : c ≠ 0) :
    chartDiskReadOf (codeNamedPayload r w t f c) = r ∧
    chartDiskWriteOf (codeNamedPayload r w t f c) = w ∧
    diskReadTextOf (codeNamedPayload r w t f c) = jsNumStr r ++ " MB/s" ∧
    diskWriteTextOf (codeNamedPayload r w t f c) = jsNumStr w ++ " MB/s" ∧
    cpuTempTextOf (codeNamedPayload r w t f c) = toFixed0 t ++ "°C" ∧
    cpuFreqTextOf (codeNamedPayload r w t f c) = toFixed0 f ++ " MHz" ∧
    cpuCoresTextOf (codeNamedPayload r w t f c) = jsNumStr c := by
  refine ⟨?_, ?_, ?_, ?_, ?_, ?_, ?_⟩
  · show jsNumOr (some r) 0 = r
    rcases eq_or_ne r 0 with h0 | h0 <;> simp [jsNumOr, h0]
  · show jsNumOr (some w) 0 = w
    rcases eq_or_ne w 0 with h0 | h0 <;> simp [jsNumOr, h0]
  · show jsNumStr (jsNumOr (some r) 0) ++ " MB/s" = jsNumStr r ++ " MB/s"
    rcases eq_or_ne r 0 with h0 | h0 <;> simp [jsNumOr, h0]
  · show jsNumStr (jsNumOr (some w) 0) ++ " MB/s" = jsNumStr w ++ " MB/s"
    rcases eq_or_ne w 0 with h0 | h0 <;> simp [jsNumOr, h0]
  · show (if t = 0 then "--°C" else toFixed0 t ++ "°C") = toFixed0 t ++ "°C"
    simp [ht]
  · show (if f = 0 then "-- MHz" else toFixed0 f ++ " MHz") = toFixed0 f ++ " MHz"
    simp [hf]
  · show (if c = 0 then "--" else jsNumStr c) = jsNumStr c
    simp [hc]

/-- Witness for amended claim C1's theorem at concrete values. -/
theorem dashboard_reads_code_field_names_witness :
    chartDiskReadOf (codeNamedPayload 5 7 50 3000 8) = 5 ∧
    chartDiskWriteOf (codeNamedPayload 5 7 50 3000 8) = 7 ∧
    diskReadTextOf (codeNamedPayload 5 7 50 3000 8) = jsNumStr 5 ++ " MB/s" ∧
    diskWriteTextOf (codeNamedPayload 5 7 50 3000 8) = jsNumStr 7 ++ " MB/s" ∧
    cpuTempTextOf (codeNamedPayload 5 7 50 3000 8) = toFixed0 50 ++ "°C" ∧
    cpuFreqTextOf (codeNamedPayload 5 7 50 3000 8) = toFixed0 3000 ++ " MHz" ∧
    cpuCoresTextOf (codeNamedPayload 5 7 50 3000 8) = jsNumStr 8 :=
  dashboard_reads_code_field_names 5 7 50 3000 8 (by norm_num) (by norm_num)
    (by norm_num)

end Dashboard
